/-
  Verification of the Semantic Surface Annotation Engine of the
  `smilehacks` repository (file `src/components/dental3d/JawViewer.tsx`).

  The TypeScript core is shallowly embedded in Lean 4:
  * JavaScript numbers are modelled as exact rationals (ℚ); every numeric
    literal of the source (0.035, 0.015, 0.2, 0.75, …) is exactly
    representable, so the arithmetic of the claims is faithful.
  * `THREE.Vector3` becomes the structure `Vec3` over ℚ.
  * The places where the source performs irrational vector normalisation
    inside the surface-point search (`.normalize()` on the centre-to-vertex
    direction and on the transformed normal, feeding the 0.7/0.3 score)
    have no exact rational form; the search is therefore parameterised by
    `vnormalize : Vec3 → Vec3` standing for THREE's `.normalize()`.  Every
    theorem below that touches the search holds for *every* choice of
    `vnormalize`, so nothing depends on this parameter.
  * JavaScript string `toLowerCase` comparison on the ASCII tooth-table
    strings is modelled by `lowerCodes`, mapping a string to the list of
    its code points with `A`–`Z` shifted to `a`–`z`.
  * React state updates (`setCavities`, `setAnnotations`, …) become pure
    functions on a `Chart` record; database calls are external effects
    outside the modelled state and are dropped, exactly as the source
    falls back to the same local-state update when they fail.
-/
import Mathlib

namespace JawViewer

/-- 3D vector over exact rationals, modelling `THREE.Vector3`. -/
structure Vec3 where
  x : ℚ
  y : ℚ
  z : ℚ
deriving DecidableEq, Repr

namespace Vec3

def add (a b : Vec3) : Vec3 := ⟨a.x + b.x, a.y + b.y, a.z + b.z⟩

def smul (q : ℚ) (a : Vec3) : Vec3 := ⟨q * a.x, q * a.y, q * a.z⟩

/-- Squared Euclidean distance between two points.  The source compares
`currentPos.distanceTo(other.position) < 0.5`; since both sides are
nonnegative this is equivalent to the squared comparison
`distSq < 0.25`, which is exact over ℚ. -/
def distSq (a b : Vec3) : ℚ :=
  (a.x - b.x) ^ 2 + (a.y - b.y) ^ 2 + (a.z - b.z) ^ 2

def zero : Vec3 := ⟨0, 0, 0⟩

end Vec3

/-- One value of the `TOOTH_MAP` table: either a gum entry or a tooth
with display name, quadrant and universal tooth number. -/
inductive ToothInfo where
  | gum (name : String)
  | tooth (name : String) (quadrant : String) (toothNumber : ℕ)
deriving DecidableEq, Repr

namespace ToothInfo

def isGum : ToothInfo → Bool
  | .gum _ => true
  | .tooth _ _ _ => false

def name : ToothInfo → String
  | .gum n => n
  | .tooth n _ _ => n

end ToothInfo

/-- The hardcoded `TOOTH_MAP` table of `JawViewer.tsx`, in source
(insertion) order: mesh-object name ↦ tooth descriptor. -/
def TOOTH_MAP : List (String × ToothInfo) :=
  [ ("jaw.014", .gum "Upper Gum"),
    ("jaw.029", .gum "Lower Gum"),
    ("jaw",     .tooth "Central Incisor" "Upper Right" 8),
    ("jaw.003", .tooth "Lateral Incisor" "Upper Right" 7),
    ("jaw.004", .tooth "Canine" "Upper Right" 6),
    ("jaw.002", .tooth "First Premolar" "Upper Right" 5),
    ("jaw.001", .tooth "Second Premolar" "Upper Right" 4),
    ("jaw.005", .tooth "First Molar" "Upper Right" 3),
    ("jaw.006", .tooth "Second Molar" "Upper Right" 2),
    ("jaw.007", .tooth "Central Incisor" "Upper Left" 9),
    ("jaw.010", .tooth "Lateral Incisor" "Upper Left" 10),
    ("jaw.011", .tooth "Canine" "Upper Left" 11),
    ("jaw.009", .tooth "First Premolar" "Upper Left" 12),
    ("jaw.008", .tooth "Second Premolar" "Upper Left" 13),
    ("jaw.012", .tooth "First Molar" "Upper Left" 14),
    ("jaw.013", .tooth "Second Molar" "Upper Left" 15),
    ("jaw.015", .tooth "Central Incisor" "Lower Right" 25),
    ("jaw.019", .tooth "Lateral Incisor" "Lower Right" 26),
    ("jaw.018", .tooth "Canine" "Lower Right" 27),
    ("jaw.017", .tooth "First Premolar" "Lower Right" 28),
    ("jaw.016", .tooth "Second Premolar" "Lower Right" 29),
    ("jaw.020", .tooth "First Molar" "Lower Right" 30),
    ("jaw.021", .tooth "Second Molar" "Lower Right" 31),
    ("jaw.022", .tooth "Central Incisor" "Lower Left" 24),
    ("jaw.026", .tooth "Lateral Incisor" "Lower Left" 23),
    ("jaw.025", .tooth "Canine" "Lower Left" 22),
    ("jaw.024", .tooth "First Premolar" "Lower Left" 21),
    ("jaw.023", .tooth "Second Premolar" "Lower Left" 20),
    ("jaw.027", .tooth "First Molar" "Lower Left" 19),
    ("jaw.028", .tooth "Second Molar" "Lower Left" 18) ]

/-- `TOOTH_MAP[objectName]` of the source: first (only) binding of a key. -/
def lookupTooth (objectName : String) : Option ToothInfo :=
  (TOOTH_MAP.find? fun e => e.1 = objectName).map Prod.snd

/-- JavaScript `toLowerCase` on the ASCII strings of the tooth table:
the list of code points with upper-case ASCII letters shifted down. -/
def lowerCodes (s : String) : List ℕ :=
  s.data.map fun c =>
    if 65 ≤ c.toNat ∧ c.toNat ≤ 90 then c.toNat + 32 else c.toNat

/-- `findObjectName` of the source: reverse lookup by case-insensitive
display name and quadrant over the entries in table order, skipping gums. -/
def findObjectName (toothType quadrant : String) : Option String :=
  (TOOTH_MAP.find? fun e =>
      match e.2 with
      | .gum _ => false
      | .tooth n q _ =>
          lowerCodes n = lowerCodes toothType ∧ lowerCodes q = lowerCodes quadrant).map
    Prod.fst

/-- `findObjectNameByToothNumber` of the source: reverse lookup by
universal tooth number over the entries in table order, skipping gums. -/
def findObjectNameByToothNumber (toothNumber : ℕ) : Option String :=
  (TOOTH_MAP.find? fun e =>
      match e.2 with
      | .gum _ => false
      | .tooth _ _ k => k = toothNumber).map Prod.fst

/-- Quadrant of a tooth descriptor (`""` for gums, which the reverse
lookups skip anyway). -/
def ToothInfo.quadrant : ToothInfo → String
  | .gum _ => ""
  | .tooth _ q _ => q

/-- Universal tooth number of a descriptor (`0` for gums, which the
reverse lookups skip anyway). -/
def ToothInfo.number : ToothInfo → ℕ
  | .gum _ => 0
  | .tooth _ _ k => k

/-- `getToothInfo(objectName).displayName` of the source: table name when
known, the raw object name as fallback display label otherwise. -/
def getToothInfoDisplayName (objectName : String) : String :=
  match lookupTooth objectName with
  | some info => info.name
  | none => objectName

end JawViewer

namespace JawViewer

/-! ## Surface Point Locator

Embedding of the vertex-sampling search of `placeCavityOnTooth`
(lines 1271–1337), duplicated verbatim in the CT-scan cavity effect
(lines 1420–1490) and, without the fallback, in the annotation position
effect (lines 1540–1589). -/

/-- The five anatomical surface directions. -/
inductive Dir where
  | occlusal | buccal | lingual | mesial | distal
deriving DecidableEq, Repr

/-- `getDirectionVector` of the source (lines 1846–1855): canonical unit
vector per surface.  The source chains `.normalize()` on the result; all
five vectors already have length 1, so that call is the identity and is
omitted here. -/
def getDirectionVector : Dir → Vec3
  | .occlusal => ⟨0, 1, 0⟩
  | .buccal => ⟨1, 0, 0⟩
  | .lingual => ⟨-1, 0, 0⟩
  | .mesial => ⟨0, 0, 1⟩
  | .distal => ⟨0, 0, -1⟩

/-- Mesh geometry: the optional `position` and `normal` buffer
attributes, each a list of per-vertex vectors. -/
structure Geometry where
  positions : Option (List Vec3)
  normals : Option (List Vec3)

/-- Affine world transform (`mesh.matrixWorld`): linear part by rows plus
translation. -/
structure Mat4 where
  m00 : ℚ
  m01 : ℚ
  m02 : ℚ
  m10 : ℚ
  m11 : ℚ
  m12 : ℚ
  m20 : ℚ
  m21 : ℚ
  m22 : ℚ
  tx : ℚ
  ty : ℚ
  tz : ℚ

/-- `v.applyMatrix4(m)` on a point. -/
def Mat4.applyPoint (m : Mat4) (v : Vec3) : Vec3 :=
  ⟨m.m00 * v.x + m.m01 * v.y + m.m02 * v.z + m.tx,
   m.m10 * v.x + m.m11 * v.y + m.m12 * v.z + m.ty,
   m.m20 * v.x + m.m21 * v.y + m.m22 * v.z + m.tz⟩

/-- Linear (rotation/scale) part of the transform, the pre-normalisation
step of `v.transformDirection(m)`. -/
def Mat4.applyLinear (m : Mat4) (v : Vec3) : Vec3 :=
  ⟨m.m00 * v.x + m.m01 * v.y + m.m02 * v.z,
   m.m10 * v.x + m.m11 * v.y + m.m12 * v.z,
   m.m20 * v.x + m.m21 * v.y + m.m22 * v.z⟩

/-- A scene mesh: geometry plus world transform.  The environment maps a
mesh to `none` exactly when the source's guard
`if (!mesh || !mesh.geometry)` fires. -/
structure Mesh where
  geometry : Geometry
  matrixWorld : Mat4

def Vec3.sub (a b : Vec3) : Vec3 := ⟨a.x - b.x, a.y - b.y, a.z - b.z⟩

def Vec3.dot (a b : Vec3) : ℚ := a.x * b.x + a.y * b.y + a.z * b.z

def vmin (a b : Vec3) : Vec3 := ⟨min a.x b.x, min a.y b.y, min a.z b.z⟩

def vmax (a b : Vec3) : Vec3 := ⟨max a.x b.x, max a.y b.y, max a.z b.z⟩

/-- Local-space axis-aligned bounding box of the geometry
(`geometry.computeBoundingBox`); `none` is the empty box, produced when
the position attribute is missing or has zero vertices. -/
def localBox (g : Geometry) : Option (Vec3 × Vec3) :=
  match g.positions with
  | none => none
  | some [] => none
  | some (v :: vs) => some (vs.foldl (fun acc w => (vmin acc.1 w, vmax acc.2 w)) (v, v))

/-- The eight corners of a box. -/
def boxCorners (lo hi : Vec3) : List Vec3 :=
  [⟨lo.x, lo.y, lo.z⟩, ⟨lo.x, lo.y, hi.z⟩, ⟨lo.x, hi.y, lo.z⟩, ⟨lo.x, hi.y, hi.z⟩,
   ⟨hi.x, lo.y, lo.z⟩, ⟨hi.x, lo.y, hi.z⟩, ⟨hi.x, hi.y, lo.z⟩, ⟨hi.x, hi.y, hi.z⟩]

/-- `new THREE.Box3().setFromObject(mesh)`: the local bounding box taken
through the world transform (`Box3.applyMatrix4` maps the eight corners
and re-wraps them in an axis-aligned box). -/
def worldBox (mesh : Mesh) : Option (Vec3 × Vec3) :=
  (localBox mesh.geometry).map fun b =>
    match (boxCorners b.1 b.2).map mesh.matrixWorld.applyPoint with
    | [] => (Vec3.zero, Vec3.zero)
    | c :: cs => cs.foldl (fun acc w => (vmin acc.1 w, vmax acc.2 w)) (c, c)

/-- `box.getCenter(...)`: midpoint, or the origin for the empty box. -/
def boxCenter (b : Option (Vec3 × Vec3)) : Vec3 :=
  match b with
  | none => Vec3.zero
  | some (lo, hi) => Vec3.smul (1/2) (Vec3.add lo hi)

/-- `box.getSize(...)`: extent, or zero for the empty box. -/
def boxSize (b : Option (Vec3 × Vec3)) : Vec3 :=
  match b with
  | none => Vec3.zero
  | some (lo, hi) => Vec3.sub hi lo

/-- Stride of the sampling loop:
`step = Math.floor(count / Math.min(count, 100))`. -/
def sampleStep (count : ℕ) : ℕ := count / min count 100

/-- Index set visited by `for (let i = 0; i < count; i += step)`.
For `count = 0` the loop body never runs (the loop guard fails at once,
before the NaN stride could matter). -/
def sampledIndices (count : ℕ) : List ℕ :=
  if count = 0 then []
  else (List.range ((count + sampleStep count - 1) / sampleStep count)).map
    (· * sampleStep count)

/-- The best-vertex search over the sampled indices (source lines
1286–1323): transform each sampled vertex and normal to world space,
score it against the requested direction, and keep the strict maximum
(`totalScore > bestScore`, so the earliest maximum wins).  `vnormalize`
stands for THREE's irrational `.normalize()`; no theorem below depends
on its values.  Returns `none` when an attribute is missing or no vertex
was visited — the source's `bestVertex === null` case. -/
def bestSample (vnormalize : Vec3 → Vec3) (mesh : Mesh) (center dir : Vec3) :
    Option (Vec3 × Vec3) :=
  match mesh.geometry.positions, mesh.geometry.normals with
  | some ps, some ns =>
    ((sampledIndices ps.length).foldl
      (fun acc i =>
        let worldVertex := mesh.matrixWorld.applyPoint (ps.getD i Vec3.zero)
        let worldNormal := vnormalize (mesh.matrixWorld.applyLinear (ns.getD i Vec3.zero))
        let vertexDir := vnormalize (Vec3.sub worldVertex center)
        let directionScore := Vec3.dot vertexDir dir
        let normalScore := Vec3.dot worldNormal dir
        let totalScore := directionScore * (7/10) + normalScore * (3/10)
        match acc with
        | none => some (totalScore, worldVertex, worldNormal)
        | some best => if best.1 < totalScore then some (totalScore, worldVertex, worldNormal)
            else some best)
      none).map fun best => (best.2.1, best.2.2)
  | _, _ => none

/-- `locate`: the full surface-point search of `placeCavityOnTooth`
(lines 1271–1337) — bounding box, best-vertex search, and the shared
fallback `center + direction × (0.4 × maxDim)` with normal `direction`
used both when the attributes are missing and when no vertex was found. -/
def locate (vnormalize : Vec3 → Vec3) (mesh : Mesh) (dir : Vec3) : Vec3 × Vec3 :=
  match bestSample vnormalize mesh (boxCenter (worldBox mesh)) dir with
  | some r => r
  | none =>
      (Vec3.add (boxCenter (worldBox mesh))
        (Vec3.smul
          (max (boxSize (worldBox mesh)).x
            (max (boxSize (worldBox mesh)).y (boxSize (worldBox mesh)).z) * (4/10)) dir),
       dir)

end JawViewer

namespace JawViewer

/-! ## Sampling bounds (C4) and locator fallback (C5) -/

/-- C4 counterexample: a mesh with 101 vertices.  The sampling stride is
`floor(101 / min(101, 100)) = 1`, so the loop examines all 101 vertices —
more than the claimed 100-vertex budget — and iterates the full buffer. -/
theorem sampledIndices_101_full :
    (sampledIndices 101).length = 101 ∧ ¬ (sampledIndices 101).length ≤ 100 := by
  constructor <;> decide

/-- C4 (amended): for every non-empty vertex buffer the stride is
`max(1, ⌊vertexCount / 100⌋)`; the loop examines
`⌈vertexCount / stride⌉` vertices, which is at most 199 (not 100), and
only meshes with at least 200 vertices are guaranteed not to be iterated
in full. -/
theorem sampling_stride_and_bounds (count : ℕ) (h : 0 < count) :
    sampleStep count = max 1 (count / 100) ∧
    (sampledIndices count).length = (count + sampleStep count - 1) / sampleStep count ∧
    (sampledIndices count).length ≤ 199 ∧
    (200 ≤ count → (sampledIndices count).length < count) := by
  have hstep : sampleStep count = max 1 (count / 100) := by
    unfold sampleStep
    rcases le_or_lt count 100 with hle | hlt
    · rw [min_eq_left hle, Nat.div_self h]
      have h1 : count / 100 ≤ 1 := by omega
      exact (Nat.max_eq_left h1).symm
    · rw [min_eq_right hlt.le]
      have h1 : 1 ≤ count / 100 := by omega
      exact (Nat.max_eq_right h1).symm
  have hlen : (sampledIndices count).length =
      (count + sampleStep count - 1) / sampleStep count := by
    unfold sampledIndices
    rw [if_neg (Nat.pos_iff_ne_zero.mp h)]
    simp
  refine ⟨hstep, hlen, ?_, ?_⟩
  · rcases le_or_lt count 199 with hle | hlt
    · have hs1 : sampleStep count = 1 := by
        rw [hstep]
        have : count / 100 ≤ 1 := by omega
        exact Nat.max_eq_left this
      rw [hlen, hs1]
      omega
    · have hs : sampleStep count = count / 100 := by
        rw [hstep]
        exact Nat.max_eq_right (by omega)
      have hq2 : 2 ≤ count / 100 := by omega
      have hlt151 : (count + count / 100 - 1) / (count / 100) < 151 := by
        rw [Nat.div_lt_iff_lt_mul (by omega : 0 < count / 100)]
        omega
      rw [hlen, hs]
      omega
  · intro h200
    have hs : sampleStep count = count / 100 := by
      rw [hstep]
      exact Nat.max_eq_right (by omega)
    have hq2 : 2 ≤ count / 100 := by omega
    have hlt151 : (count + count / 100 - 1) / (count / 100) < 151 := by
      rw [Nat.div_lt_iff_lt_mul (by omega : 0 < count / 100)]
      omega
    rw [hlen, hs]
    omega

/-- Witness for `sampling_stride_and_bounds` at a 250-vertex mesh. -/
theorem sampling_stride_and_bounds_witness :
    0 < 250 ∧ sampleStep 250 = max 1 (250 / 100) ∧
      (sampledIndices 250).length ≤ 199 ∧ (sampledIndices 250).length < 250 :=
  ⟨by decide, (sampling_stride_and_bounds 250 (by decide)).1,
    (sampling_stride_and_bounds 250 (by decide)).2.2.1,
    (sampling_stride_and_bounds 250 (by decide)).2.2.2 (by decide)⟩

/-- C5: on a mesh with missing vertex/normal attributes or zero vertices,
`locate` never reaches the vertex search and returns the deterministic
fallback: bounding-box centre plus the direction scaled by 0.4 times the
largest box dimension, with the normal equal to the direction itself —
for every model of the irrational `.normalize()`. -/
theorem locate_degenerate_fallback (vnormalize : Vec3 → Vec3) (mesh : Mesh) (dir : Vec3)
    (h : mesh.geometry.positions = none ∨ mesh.geometry.normals = none ∨
        mesh.geometry.positions = some []) :
    locate vnormalize mesh dir =
      (Vec3.add (boxCenter (worldBox mesh))
        (Vec3.smul
          (max (boxSize (worldBox mesh)).x
            (max (boxSize (worldBox mesh)).y (boxSize (worldBox mesh)).z) * (4/10)) dir),
       dir) := by
  have hbs : bestSample vnormalize mesh (boxCenter (worldBox mesh)) dir = none := by
    unfold bestSample
    rcases h with h | h | h
    · rw [h]
    · rw [h]
      rcases mesh.geometry.positions with _ | ps <;> rfl
    · rw [h]
      rcases hn : mesh.geometry.normals with _ | ns
      · rfl
      · simp [sampledIndices]
  unfold locate
  rw [hbs]

/-- A mesh with no buffer attributes at all, used as concrete degenerate
input. -/
def emptyMesh : Mesh :=
  { geometry := { positions := none, normals := none },
    matrixWorld := ⟨1, 0, 0, 0, 1, 0, 0, 0, 1, 0, 0, 0⟩ }

/-- Witness for `locate_degenerate_fallback`: on `emptyMesh` the world
box is empty, so the fallback point is the origin and the normal is the
requested occlusal direction. -/
theorem locate_degenerate_fallback_witness :
    emptyMesh.geometry.positions = none ∧
      locate (fun v => v) emptyMesh ⟨0, 1, 0⟩ = (Vec3.zero, ⟨0, 1, 0⟩) :=
  ⟨rfl,
    (locate_degenerate_fallback (fun v => v) emptyMesh ⟨0, 1, 0⟩ (Or.inl rfl)).trans
      (by
        simp [emptyMesh, worldBox, localBox, boxCenter, boxSize, Vec3.add, Vec3.smul,
          Vec3.zero])⟩

end JawViewer

namespace JawViewer

/-! ## Overlay Entity Model

The chart aggregate — cavities, annotations, deleted-teeth set, selected
part — and the pure content of the state-updating handlers of
`JawViewer`. -/

/-- A cavity marker (source interface `Cavity`). -/
structure Cavity where
  id : String
  toothName : String
  position : Vec3
  normal : Vec3
  size : ℚ
  cavityPosition : Option Dir
deriving DecidableEq, Repr

/-- An annotation / note (source interface `Annotation`);
`createdAt : ℕ` stands for the opaque `Date`. -/
structure Annotation where
  id : String
  toothName : Option String
  toothNumber : Option ℕ
  position : Option Vec3
  normal : Option Vec3
  text : String
  createdAt : ℕ
  createdBy : String
  isPublic : Bool
deriving DecidableEq, Repr

/-- The session-scoped chart state held in the `JawViewer` component:
`deletedParts`, `cavities`, `annotations`, `selectedPart`. -/
structure Chart where
  deletedParts : List String
  cavities : List Cavity
  annotations : List Annotation
  selectedPart : Option String
deriving DecidableEq, Repr

/-- `Set.add` on the modelled `deletedParts` set. -/
def insertName (l : List String) (n : String) : List String :=
  if n ∈ l then l else l ++ [n]

/-- The scene's mesh lookup
(`allMeshes.current.find(m => meshNames.current.get(m.id) === toothName)`):
`none` exactly when the source's guard `if (!mesh || !mesh.geometry)`
fires (mesh missing, or present without geometry), which also covers the
`if (!model) return` guard — before the model loads no mesh resolves. -/
def MeshEnv : Type := String → Option Mesh

/-- `placeCavityOnTooth` (lines 1255–1355): look up the mesh, run the
locator, build the marker with
`size = 0.035 + existingCavityCount × 0.015`, and append it via
`onAddCavity`/`handleAddCavity` (line 2295, `[...prev, cavity]`).
`freshId` stands for the `Date.now()`/`Math.random()` generated id. -/
def placeCavityOnTooth (vnormalize : Vec3 → Vec3) (env : MeshEnv) (freshId : String)
    (toothName : String) (cavityPosition : Dir) (existingCavityCount : ℕ)
    (chart : Chart) : Chart :=
  match env toothName with
  | none => chart
  | some mesh =>
      { chart with
        cavities := chart.cavities ++
          [{ id := freshId
             toothName := toothName
             position := (locate vnormalize mesh (getDirectionVector cavityPosition)).1
             normal := vnormalize (locate vnormalize mesh (getDirectionVector cavityPosition)).2
             size := 35/1000 + existingCavityCount * (15/1000)
             cavityPosition := some cavityPosition }] }

/-- `existingCavitiesAtPosition.length` (lines 2265–2267): number of
stored markers at a given `(tooth, surface)` pair. -/
def countCavitiesAt (chart : Chart) (objName : String) (position : Dir) : ℕ :=
  (chart.cavities.filter fun c =>
    c.toothName = objName ∧ c.cavityPosition = some position).length

/-- `handleCavityPositionSelect` (lines 2252–2290): count the existing
cavities at `(toothName, position)` and place one more; gums and unknown
objects are rejected.  The database write is an external effect with no
bearing on the chart state. -/
def handleCavityPositionSelect (vnormalize : Vec3 → Vec3) (env : MeshEnv) (freshId : String)
    (objName : String) (position : Dir) (chart : Chart) : Chart :=
  match lookupTooth objName with
  | none => chart
  | some info =>
      if info.isGum then chart
      else
        placeCavityOnTooth vnormalize env freshId objName position
          (countCavitiesAt chart objName position) chart

/-- `handleDelete` (lines 2184–2238): both branches (gum / tooth, with or
without a database round-trip) perform the same local update — mark the
part deleted, cascade-delete its cavities, close the side panel.
Annotations are untouched. -/
def handleDelete (name : String) (chart : Chart) : Chart :=
  { chart with
    deletedParts := insertName chart.deletedParts name
    cavities := chart.cavities.filter fun c => ¬ c.toothName = name
    selectedPart := none }

/-- `handleRestoreAll` (lines 2446–2481): both branches clear
`deletedParts` and nothing else; cavities and annotations are untouched. -/
def handleRestoreAll (chart : Chart) : Chart :=
  { chart with deletedParts := [] }

/-- The `PartInfo` fields consumed by `handleAnnotationSubmit`. -/
structure PartInfo where
  name : String
  toothNumber : Option ℕ
deriving DecidableEq, Repr

/-- The annotation built by `handleAnnotationSubmit` (lines 2315–2325):
`toothName: toothInfo?.name || null`, `toothNumber: toothInfo?.toothNumber
|| null` (JavaScript truthiness: an empty name or a zero number collapses
to `null`), position and normal `null`. -/
def handleAnnotationSubmit (toothInfo : Option PartInfo) (text : String) (isPublic : Bool)
    (freshId : String) (createdAt : ℕ) (createdBy : String) : Annotation :=
  { id := freshId
    toothName :=
      match toothInfo with
      | some t => if t.name = "" then none else some t.name
      | none => none
    toothNumber :=
      match toothInfo with
      | some t =>
          match t.toothNumber with
          | some n => if n = 0 then none else some n
          | none => none
      | none => none
    position := none
    normal := none
    text := text
    createdAt := createdAt
    createdBy := createdBy
    isPublic := isPublic }

/-- `toothNumberForDB` of `handleAnnotationSubmit` (line 2335):
`toothInfo?.toothNumber || 0` — the tooth number written to the
persistence collaborator, `0` for general notes. -/
def toothNumberForDB (toothInfo : Option PartInfo) : ℕ :=
  match toothInfo with
  | some t => (t.toothNumber).getD 0
  | none => 0

end JawViewer

namespace JawViewer

/-! ## Claims about the overlay entity model: C10, C2, C1 -/

/-- The empty chart, used as concrete input in witnesses. -/
def emptyChart : Chart :=
  { deletedParts := [], cavities := [], annotations := [], selectedPart := none }

/-- C10: placing a cavity on a tooth whose mesh (with geometry) is not
available is a silent no-op — no marker is created and the whole chart
state is unchanged. -/
theorem placeCavity_missing_mesh_noop (vnormalize : Vec3 → Vec3) (env : MeshEnv)
    (freshId toothName : String) (cavityPosition : Dir) (existingCavityCount : ℕ)
    (chart : Chart) (h : env toothName = none) :
    placeCavityOnTooth vnormalize env freshId toothName cavityPosition
      existingCavityCount chart = chart := by
  unfold placeCavityOnTooth
  rw [h]

/-- Witness for `placeCavity_missing_mesh_noop`: an environment with no
meshes at all. -/
theorem placeCavity_missing_mesh_noop_witness :
    (fun _ => none : MeshEnv) "jaw.005" = none ∧
      placeCavityOnTooth (fun v => v) (fun _ => none) "c1" "jaw.005" Dir.occlusal 0
        emptyChart = emptyChart :=
  ⟨rfl, placeCavity_missing_mesh_noop (fun v => v) (fun _ => none) "c1" "jaw.005"
    Dir.occlusal 0 emptyChart rfl⟩

/-- C2: after `handleDelete T`, no cavity on `T` remains in the chart,
the annotations are exactly as before (no cascade on notes), and a
subsequent restore leaves the cavity collection unchanged (it only
clears the deleted-teeth set). -/
theorem delete_cascade_and_restore (chart : Chart) (T : String) :
    ((handleDelete T chart).cavities.all fun c => ¬ c.toothName = T) = true ∧
      (handleDelete T chart).annotations = chart.annotations ∧
      (handleRestoreAll (handleDelete T chart)).cavities = (handleDelete T chart).cavities := by
  refine ⟨?_, rfl, rfl⟩
  rw [List.all_eq_true]
  intro c hc
  simpa using List.of_mem_filter hc

/-- Iterated cavity placement: `placeSeq ids` performs one
`handleCavityPositionSelect` per fresh id, left to right. -/
def placeSeq (vnormalize : Vec3 → Vec3) (env : MeshEnv) (objName : String)
    (position : Dir) : List String → Chart → Chart
  | [], chart => chart
  | freshId :: ids, chart =>
      placeSeq vnormalize env objName position ids
        (handleCavityPositionSelect vnormalize env freshId objName position chart)

theorem select_step (vnormalize : Vec3 → Vec3) (env : MeshEnv) (freshId objName : String)
    (position : Dir) (chart : Chart) (info : ToothInfo) (mesh : Mesh)
    (hlook : lookupTooth objName = some info) (hgum : info.isGum = false)
    (hmesh : env objName = some mesh) :
    ∃ m : Cavity,
      handleCavityPositionSelect vnormalize env freshId objName position chart =
        { chart with cavities := chart.cavities ++ [m] } ∧
      m.toothName = objName ∧ m.cavityPosition = some position ∧
      m.size = 35/1000 + countCavitiesAt chart objName position * (15/1000) := by
  refine ⟨{ id := freshId
            toothName := objName
            position := (locate vnormalize mesh (getDirectionVector position)).1
            normal := vnormalize (locate vnormalize mesh (getDirectionVector position)).2
            size := 35/1000 + countCavitiesAt chart objName position * (15/1000)
            cavityPosition := some position }, ?_, rfl, rfl, rfl⟩
  simp [handleCavityPositionSelect, placeCavityOnTooth, hlook, hgum, hmesh]

theorem countCavitiesAt_append_match (chart : Chart) (objName : String) (position : Dir)
    (m : Cavity) (hm : m.toothName = objName) (hp : m.cavityPosition = some position) :
    countCavitiesAt { chart with cavities := chart.cavities ++ [m] } objName position =
      countCavitiesAt chart objName position + 1 := by
  unfold countCavitiesAt
  rw [List.filter_append]
  simp [hm, hp]

theorem select_cavities_prefix (vnormalize : Vec3 → Vec3) (env : MeshEnv)
    (freshId objName : String) (position : Dir) (chart : Chart) :
    ∃ t, (handleCavityPositionSelect vnormalize env freshId objName position chart).cavities =
      chart.cavities ++ t := by
  rcases hl : lookupTooth objName with _ | info
  · exact ⟨[], by simp [handleCavityPositionSelect, hl]⟩
  · rcases hg : info.isGum with _ | _
    · rcases he : env objName with _ | mesh
      · exact ⟨[], by simp [handleCavityPositionSelect, placeCavityOnTooth, hl, hg, he]⟩
      · obtain ⟨m, hsel, -, -, -⟩ := select_step vnormalize env freshId objName position
          chart info mesh hl hg he
        exact ⟨[m], by rw [hsel]⟩
    · exact ⟨[], by simp [handleCavityPositionSelect, hl, hg]⟩

theorem placeSeq_cavities_prefix (vnormalize : Vec3 → Vec3) (env : MeshEnv)
    (objName : String) (position : Dir) :
    ∀ (ids : List String) (chart : Chart),
      ∃ t, (placeSeq vnormalize env objName position ids chart).cavities =
        chart.cavities ++ t := by
  intro ids
  induction ids with
  | nil => exact fun chart => ⟨[], by simp [placeSeq]⟩
  | cons freshId ids ih =>
      intro chart
      obtain ⟨t₁, ht₁⟩ := select_cavities_prefix vnormalize env freshId objName position chart
      obtain ⟨t₂, ht₂⟩ :=
        ih (handleCavityPositionSelect vnormalize env freshId objName position chart)
      refine ⟨t₁ ++ t₂, ?_⟩
      show (placeSeq vnormalize env objName position ids
        (handleCavityPositionSelect vnormalize env freshId objName position chart)).cavities = _
      rw [ht₂, ht₁, List.append_assoc]

theorem placeSeq_sizes (vnormalize : Vec3 → Vec3) (env : MeshEnv) (objName : String)
    (position : Dir) (info : ToothInfo) (mesh : Mesh)
    (hlook : lookupTooth objName = some info) (hgum : info.isGum = false)
    (hmesh : env objName = some mesh) :
    ∀ (ids : List String) (chart : Chart),
      ((placeSeq vnormalize env objName position ids chart).cavities.drop
          chart.cavities.length).map Cavity.size =
        (List.range ids.length).map
          fun i : ℕ =>
            35/1000 + ((countCavitiesAt chart objName position : ℚ) + i) * (15/1000) := by
  intro ids
  induction ids with
  | nil => intro chart; simp [placeSeq]
  | cons freshId ids ih =>
      intro chart
      obtain ⟨m, hsel, hmt, hmp, hms⟩ := select_step vnormalize env freshId objName position
        chart info mesh hlook hgum hmesh
      have hcnt := countCavitiesAt_append_match chart objName position m hmt hmp
      have ihc := ih { chart with cavities := chart.cavities ++ [m] }
      obtain ⟨t, ht⟩ := placeSeq_cavities_prefix vnormalize env objName position ids
        { chart with cavities := chart.cavities ++ [m] }
      dsimp only at ihc ht
      rw [ht, List.drop_left, hcnt] at ihc
      show ((placeSeq vnormalize env objName position ids
        (handleCavityPositionSelect vnormalize env freshId objName position chart)).cavities.drop
          chart.cavities.length).map Cavity.size = _
      rw [hsel, ht, List.append_assoc, List.drop_left, List.singleton_append, List.map_cons,
        ihc]
      simp only [List.length_cons]
      rw [List.range_succ_eq_map, List.map_cons, List.map_map]
      congr 1
      · rw [hms]
        push_cast
        ring
      · refine List.map_congr_left fun i _ => ?_
        simp only [Function.comp_apply, Nat.succ_eq_add_one]
        push_cast
        ring

end JawViewer

namespace JawViewer

/-- C1: starting from a chart with no marker at `(objName, position)`,
`N` consecutive placements at that pair (each taking the count of
existing markers immediately before it) create markers whose sizes are
`0.035 + 0.015·i` for `i = 0, …, N−1`; in particular the sizes are
strictly increasing. -/
theorem cavity_stacking_sizes (vnormalize : Vec3 → Vec3) (env : MeshEnv)
    (objName : String) (position : Dir) (info : ToothInfo) (mesh : Mesh)
    (ids : List String) (chart : Chart)
    (hlook : lookupTooth objName = some info) (hgum : info.isGum = false)
    (hmesh : env objName = some mesh)
    (hcount : countCavitiesAt chart objName position = 0) :
    (((placeSeq vnormalize env objName position ids chart).cavities.drop
        chart.cavities.length).map Cavity.size =
      (List.range ids.length).map fun i : ℕ => 35/1000 + (i : ℚ) * (15/1000)) ∧
    List.Pairwise (· < ·)
      (((placeSeq vnormalize env objName position ids chart).cavities.drop
          chart.cavities.length).map Cavity.size) := by
  have h := placeSeq_sizes vnormalize env objName position info mesh hlook hgum hmesh ids chart
  rw [hcount] at h
  have hr : ((placeSeq vnormalize env objName position ids chart).cavities.drop
      chart.cavities.length).map Cavity.size =
      (List.range ids.length).map fun i : ℕ => 35/1000 + (i : ℚ) * (15/1000) := by
    rw [h]
    refine List.map_congr_left fun i _ => ?_
    push_cast
    ring
  refine ⟨hr, ?_⟩
  rw [hr]
  refine List.Pairwise.map _ ?_ (List.pairwise_lt_range _)
  intro a b hab
  have hc : (a : ℚ) < b := by exact_mod_cast hab
  linarith

/-- Mesh environment exposing only the first-molar mesh, for witnesses. -/
def envJaw5 : MeshEnv := fun n => if n = "jaw.005" then some emptyMesh else none

/-- Witness for `cavity_stacking_sizes`: three placements on the upper
right first molar from the empty chart yield sizes 0.035, 0.050, 0.065. -/
theorem cavity_stacking_sizes_witness :
    lookupTooth "jaw.005" = some (ToothInfo.tooth "First Molar" "Upper Right" 3) ∧
      (ToothInfo.tooth "First Molar" "Upper Right" 3).isGum = false ∧
      envJaw5 "jaw.005" = some emptyMesh ∧
      countCavitiesAt emptyChart "jaw.005" Dir.occlusal = 0 ∧
      ((placeSeq (fun v => v) envJaw5 "jaw.005" Dir.occlusal ["a", "b", "c"]
          emptyChart).cavities.drop emptyChart.cavities.length).map Cavity.size =
        [35/1000, 50/1000, 65/1000] := by
  have hlook : lookupTooth "jaw.005" = some (ToothInfo.tooth "First Molar" "Upper Right" 3) := by
    decide
  refine ⟨hlook, rfl, rfl, rfl, ?_⟩
  have h := (cavity_stacking_sizes (fun v => v) envJaw5 "jaw.005" Dir.occlusal
    (ToothInfo.tooth "First Molar" "Upper Right" 3) emptyMesh ["a", "b", "c"] emptyChart
    hlook rfl rfl rfl).1
  rw [h]
  norm_num [List.range_succ]

end JawViewer

namespace JawViewer

/-- C3: for every non-gum entry of the tooth table, both reverse lookups
round-trip the forward lookup — resolving the display name with its
quadrant (case-insensitively) and resolving the universal tooth number
each return the entry's mesh identifier. -/
theorem registry_roundtrip :
    ∀ e ∈ TOOTH_MAP, e.2.isGum = false →
      findObjectName e.2.name e.2.quadrant = some e.1 ∧
      findObjectNameByToothNumber e.2.number = some e.1 := by
  decide

/-- Witness for `registry_roundtrip`: the upper right first molar. -/
theorem registry_roundtrip_witness :
    ("jaw.005", ToothInfo.tooth "First Molar" "Upper Right" 3) ∈ TOOTH_MAP ∧
      (ToothInfo.tooth "First Molar" "Upper Right" 3).isGum = false ∧
      findObjectName "First Molar" "Upper Right" = some "jaw.005" ∧
      findObjectNameByToothNumber 3 = some "jaw.005" := by
  have hmem : ("jaw.005", ToothInfo.tooth "First Molar" "Upper Right" 3) ∈ TOOTH_MAP := by
    decide
  have h := registry_roundtrip _ hmem rfl
  exact ⟨hmem, rfl, h.1, h.2⟩

end JawViewer

namespace JawViewer

/-! ## Damage Intensity Model (C7)

Embedding of `getChewingIntensity` (lines 1006–1041) and the per-frame
pulse of the chewing animation loop (lines 1130–1144). -/

/-- Prefix test on code-point lists. -/
def isPrefList : List ℕ → List ℕ → Bool
  | [], _ => true
  | _ :: _, [] => false
  | a :: as, b :: bs => a == b && isPrefList as bs

/-- Contiguous-substring test on code-point lists. -/
def isInfixList (pat : List ℕ) : List ℕ → Bool
  | [] => isPrefList pat []
  | b :: bs => isPrefList pat (b :: bs) || isInfixList pat bs

/-- `s.toLowerCase().includes(pattern)` for the ASCII strings involved. -/
def includesLower (s pattern : String) : Bool :=
  isInfixList (lowerCodes pattern) (lowerCodes s)

/-- The `cavityCountMap` built by the chewing effect (lines 997–1001):
markers per tooth name (a missing key reads as 0). -/
def cavityCountMap (cavities : List Cavity) (toothName : String) : ℕ :=
  (cavities.filter fun c => c.toothName = toothName).length

/-- The `baseIntensity` if-chain of `getChewingIntensity`
(lines 1010–1034): base emission intensity by anatomical role, with the
lower gum special case and the 0.3 default. -/
def chewBase (toothName : String) : ℚ :=
  if includesLower (getToothInfoDisplayName toothName) "first molar" then 75/100
  else if includesLower (getToothInfoDisplayName toothName) "second molar" then 65/100
  else if includesLower (getToothInfoDisplayName toothName) "first premolar" then 45/100
  else if includesLower (getToothInfoDisplayName toothName) "second premolar" then 35/100
  else if includesLower (getToothInfoDisplayName toothName) "canine" then 15/100
  else if includesLower (getToothInfoDisplayName toothName) "lateral incisor" then 8/100
  else if includesLower (getToothInfoDisplayName toothName) "central incisor" then 5/100
  else if toothName = "jaw.029" then 25/100
  else 3/10

/-- `getChewingIntensity` (lines 1006–1041): base plus `0.2` per cavity,
clamped to the hard-coded ceiling `10`
(`Math.min(baseIntensity + cavityBonus, 10)`). -/
def getChewingIntensity (cavities : List Cavity) (toothName : String) : ℚ :=
  min (chewBase toothName + cavityCountMap cavities toothName * (2/10)) 10

/-- `currentIntensity` of the animation loop (lines 1133–1136): the
rendered intensity at pulse factor `p ∈ [0,1]` is
`0.5·base + (1.2·base − 0.5·base)·p`. -/
def currentIntensity (baseIntensity pulseFactor : ℚ) : ℚ :=
  baseIntensity * (5/10) + (baseIntensity * (12/10) - baseIntensity * (5/10)) * pulseFactor

theorem getChewingIntensity_nil (toothName : String) :
    getChewingIntensity [] toothName = min (chewBase toothName) 10 := by
  unfold getChewingIntensity cavityCountMap
  norm_num

theorem chewBase_le_ten (toothName : String) : chewBase toothName ≤ 10 := by
  unfold chewBase
  split_ifs <;> norm_num

theorem chew_base_jaw005 : getChewingIntensity [] "jaw.005" = 75/100 := by
  rw [getChewingIntensity_nil, show chewBase "jaw.005" = 75/100 from rfl,
    min_eq_left (by norm_num)]

theorem chew_base_jaw006 : getChewingIntensity [] "jaw.006" = 65/100 := by
  rw [getChewingIntensity_nil, show chewBase "jaw.006" = 65/100 from rfl,
    min_eq_left (by norm_num)]

theorem chew_base_jaw002 : getChewingIntensity [] "jaw.002" = 45/100 := by
  rw [getChewingIntensity_nil, show chewBase "jaw.002" = 45/100 from rfl,
    min_eq_left (by norm_num)]

theorem chew_base_jaw001 : getChewingIntensity [] "jaw.001" = 35/100 := by
  rw [getChewingIntensity_nil, show chewBase "jaw.001" = 35/100 from rfl,
    min_eq_left (by norm_num)]

theorem chew_base_jaw004 : getChewingIntensity [] "jaw.004" = 15/100 := by
  rw [getChewingIntensity_nil, show chewBase "jaw.004" = 15/100 from rfl,
    min_eq_left (by norm_num)]

theorem chew_base_jaw003 : getChewingIntensity [] "jaw.003" = 8/100 := by
  rw [getChewingIntensity_nil, show chewBase "jaw.003" = 8/100 from rfl,
    min_eq_left (by norm_num)]

theorem chew_base_jaw : getChewingIntensity [] "jaw" = 5/100 := by
  rw [getChewingIntensity_nil, show chewBase "jaw" = 5/100 from rfl,
    min_eq_left (by norm_num)]

end JawViewer

namespace JawViewer

/-- C7: (1) base intensities order strictly
first molar > second molar > first premolar > second premolar > canine >
lateral incisor > central incisor (witnessed on the upper right
quadrant); (2) each recorded cavity adds 0.2 to the base before the
clamp at the hard-coded ceiling 10; (3) for a pulse factor in `[0,1]`
the rendered intensity stays between 0.5× and 1.2× of the computed base;
(4) a first molar with no cavities at pulse 0 renders at
`0.75 × 0.5 = 0.375`. -/
theorem damage_intensity_model :
    (getChewingIntensity [] "jaw.005" > getChewingIntensity [] "jaw.006" ∧
      getChewingIntensity [] "jaw.006" > getChewingIntensity [] "jaw.002" ∧
      getChewingIntensity [] "jaw.002" > getChewingIntensity [] "jaw.001" ∧
      getChewingIntensity [] "jaw.001" > getChewingIntensity [] "jaw.004" ∧
      getChewingIntensity [] "jaw.004" > getChewingIntensity [] "jaw.003" ∧
      getChewingIntensity [] "jaw.003" > getChewingIntensity [] "jaw") ∧
    (∀ (cavities : List Cavity) (toothName : String),
      getChewingIntensity cavities toothName =
        min (getChewingIntensity [] toothName +
          cavityCountMap cavities toothName * (2/10)) 10) ∧
    (∀ baseIntensity pulseFactor : ℚ, 0 ≤ baseIntensity → 0 ≤ pulseFactor →
      pulseFactor ≤ 1 →
      baseIntensity * (5/10) ≤ currentIntensity baseIntensity pulseFactor ∧
        currentIntensity baseIntensity pulseFactor ≤ baseIntensity * (12/10)) ∧
    currentIntensity (getChewingIntensity [] "jaw.005") 0 = 375/1000 := by
  refine ⟨?_, ?_, ?_, ?_⟩
  · rw [chew_base_jaw005, chew_base_jaw006, chew_base_jaw002, chew_base_jaw001,
      chew_base_jaw004, chew_base_jaw003, chew_base_jaw]
    norm_num
  · intro cavities toothName
    rw [getChewingIntensity_nil, min_eq_left (chewBase_le_ten toothName)]
    rfl
  · intro baseIntensity pulseFactor hb hp0 hp1
    unfold currentIntensity
    constructor <;> nlinarith
  · rw [chew_base_jaw005]
    unfold currentIntensity
    norm_num

/-- Witness for `damage_intensity_model`: the pulse bounds at base `3/4`
and pulse factor `1/2`. -/
theorem damage_intensity_model_witness :
    0 ≤ (3/4 : ℚ) ∧ 0 ≤ (1/2 : ℚ) ∧ (1/2 : ℚ) ≤ 1 ∧
      ((3/4 : ℚ) * (5/10) ≤ currentIntensity (3/4) (1/2) ∧
        currentIntensity (3/4) (1/2) ≤ (3/4 : ℚ) * (12/10)) :=
  ⟨by norm_num, by norm_num, by norm_num,
    damage_intensity_model.2.2.1 (3/4) (1/2) (by norm_num) (by norm_num) (by norm_num)⟩

end JawViewer

namespace JawViewer

/-- C8 counterexample: `handleAnnotationSubmit` with a null `toothInfo`
stores `toothNumber: toothInfo?.toothNumber || null`, so the created
general note carries `toothNumber = null`, not `0` (the `0` only goes to
the persistence call via `toothNumberForDB`). -/
theorem general_note_toothNumber_not_zero :
    (handleAnnotationSubmit none "note" true "annotation_1" 0 "Doctor").toothNumber = none ∧
      ¬ (handleAnnotationSubmit none "note" true "annotation_1" 0 "Doctor").toothNumber = some 0 := by
  exact ⟨rfl, by simp [handleAnnotationSubmit]⟩

/-- C8 (amended): a null `toothInfo` produces a general note whose
`toothName` and `toothNumber` are both null and whose position and
normal are null; the tooth number used for the datastore record
(`toothNumberForDB`) is `0`. -/
theorem general_note_fields (text : String) (isPublic : Bool) (freshId : String)
    (createdAt : ℕ) (createdBy : String) :
    (handleAnnotationSubmit none text isPublic freshId createdAt createdBy).toothName = none ∧
      (handleAnnotationSubmit none text isPublic freshId createdAt createdBy).toothNumber = none ∧
      (handleAnnotationSubmit none text isPublic freshId createdAt createdBy).position = none ∧
      (handleAnnotationSubmit none text isPublic freshId createdAt createdBy).normal = none ∧
      toothNumberForDB none = 0 :=
  ⟨rfl, rfl, rfl, rfl, rfl⟩

end JawViewer

namespace JawViewer

/-! ## Label Declutter Layout (C9)

Embedding of `AnnotationLabel.calculateLabelOffset` (lines 527–553). -/

/-- One iteration of the overlap loop (lines 535–548): skip self and
unresolved notes; for an anchor within 0.5 world units (equivalently,
squared distance below 0.25) bump the overlap count, add 0.4 vertically
and ±0.2 horizontally with the sign alternating by the updated count. -/
def labelStep (currentPos : Vec3) (aId : String) (st : ℕ × Vec3)
    (other : Annotation) : ℕ × Vec3 :=
  if other.id = aId then st
  else
    match other.position with
    | none => st
    | some p =>
        if Vec3.distSq currentPos p < 1/4 then
          (st.1 + 1,
           ⟨st.2.x + (2/10) * (if (st.1 + 1) % 2 = 0 then 1 else -1),
            st.2.y + 4/10, st.2.z⟩)
        else st

/-- `calculateLabelOffset`: the fixed minimum offset `(0, 1.5, 0)` plus
the accumulated overlap offset.  The component only calls this when
`annotation.position` is set (`if (!annotation.position) return null`),
hence the `getD`. -/
def calculateLabelOffset (note : Annotation) (allAnnotations : List Annotation) : Vec3 :=
  Vec3.add ⟨0, 15/10, 0⟩
    (allAnnotations.foldl
      (labelStep (note.position.getD Vec3.zero) note.id) (0, Vec3.zero)).2

/-- The loop's overlap condition as a predicate: another, resolved note
whose anchor is within 0.5 world units. -/
def overlapsWith (currentPos : Vec3) (aId : String) (other : Annotation) : Bool :=
  if other.id = aId then false
  else
    match other.position with
    | none => false
    | some p => Vec3.distSq currentPos p < 1/4

/-- Number of overlapping notes seen by `calculateLabelOffset`. -/
def overlapCount (note : Annotation) (allAnnotations : List Annotation) : ℕ :=
  (allAnnotations.filter
    (overlapsWith (note.position.getD Vec3.zero) note.id)).length

/-- Net horizontal offset after `k` alternating ±0.2 bumps starting from
overlap count `c`. -/
def altX (c k : ℕ) : ℚ :=
  if k % 2 = 0 then 0 else if c % 2 = 0 then -(2/10) else 2/10

theorem altX_succ (c k : ℕ) :
    altX c (k + 1) = (2/10) * (if (c + 1) % 2 = 0 then (1 : ℚ) else -1) + altX (c + 1) k := by
  unfold altX
  rcases Nat.mod_two_eq_zero_or_one c with hc | hc <;>
    rcases Nat.mod_two_eq_zero_or_one k with hk | hk <;>
      simp [Nat.add_mod, hc, hk]

theorem labelFold_spec (currentPos : Vec3) (aId : String) :
    ∀ (l : List Annotation) (c : ℕ) (off : Vec3),
      l.foldl (labelStep currentPos aId) (c, off) =
        (c + (l.filter (overlapsWith currentPos aId)).length,
         ⟨off.x + altX c (l.filter (overlapsWith currentPos aId)).length,
          off.y + (4/10) * (l.filter (overlapsWith currentPos aId)).length,
          off.z⟩) := by
  intro l
  induction l with
  | nil =>
      intro c off
      obtain ⟨ox, oy, oz⟩ := off
      simp [altX]
  | cons other l ih =>
      intro c off
      rw [List.foldl_cons, List.filter_cons]
      by_cases hid : other.id = aId
      · have h1 : labelStep currentPos aId (c, off) other = (c, off) := by
          unfold labelStep
          rw [if_pos hid]
        have h2 : overlapsWith currentPos aId other = false := by
          unfold overlapsWith
          rw [if_pos hid]
        rw [h1, h2]
        simpa using ih c off
      · rcases hp : other.position with _ | p
        · have h1 : labelStep currentPos aId (c, off) other = (c, off) := by
            unfold labelStep
            rw [if_neg hid, hp]
          have h2 : overlapsWith currentPos aId other = false := by
            unfold overlapsWith
            rw [if_neg hid, hp]
          rw [h1, h2]
          simpa using ih c off
        · by_cases hd : Vec3.distSq currentPos p < 1/4
          · have h1 : labelStep currentPos aId (c, off) other =
                (c + 1,
                 ⟨off.x + (2/10) * (if (c + 1) % 2 = 0 then 1 else -1),
                  off.y + 4/10, off.z⟩) := by
              unfold labelStep
              rw [if_neg hid, hp]
              dsimp only
              rw [if_pos hd]
            have h2 : overlapsWith currentPos aId other = true := by
              unfold overlapsWith
              rw [if_neg hid, hp]
              exact decide_eq_true hd
            rw [h1, h2, if_pos rfl, List.length_cons, ih]
            simp only [Prod.mk.injEq, Vec3.mk.injEq]
            refine ⟨by omega, ?_, ?_, trivial⟩
            · rw [altX_succ]
              ring
            · push_cast
              ring
          · have h1 : labelStep currentPos aId (c, off) other = (c, off) := by
              unfold labelStep
              rw [if_neg hid, hp]
              dsimp only
              rw [if_neg hd]
            have h2 : overlapsWith currentPos aId other = false := by
              unfold overlapsWith
              rw [if_neg hid, hp]
              exact decide_eq_false hd
            rw [h1, h2]
            simpa using ih c off

end JawViewer

namespace JawViewer

/-- C9: the label offset is the fixed minimum vertical offset `(0,1.5,0)`
plus `+0.4` vertically per other resolved note within 0.5 world units,
with the `±0.2` horizontal bumps (sign alternating with the running
overlap count, starting negative) collapsing to `−0.2` for an odd
overlap count and `0` for an even one.  The offset depends only on the
number of overlapping notes, so the layout is deterministic for any
fixed iteration order of the note list. -/
theorem label_declutter_layout (note : Annotation)
    (allAnnotations : List Annotation) :
    calculateLabelOffset note allAnnotations =
      ⟨(if overlapCount note allAnnotations % 2 = 0 then 0 else -(2/10)),
       15/10 + (4/10) * (overlapCount note allAnnotations : ℚ),
       0⟩ := by
  unfold calculateLabelOffset overlapCount
  rw [labelFold_spec]
  by_cases hk : (allAnnotations.filter
      (overlapsWith (note.position.getD Vec3.zero) note.id)).length % 2 = 0 <;>
    simp [Vec3.add, Vec3.zero, altX, hk]

end JawViewer

namespace JawViewer

/-! ## Note resolution (C6)

Embedding of the annotation position resolution effect (lines 1516–1596)
and `handleUpdateAnnotationPositions` (lines 2428–2443). -/

/-- JavaScript truthiness of the nullable `toothName` string. -/
def truthy (s : Option String) : Bool :=
  match s with
  | none => false
  | some t => t != ""

/-- `annotations.filter(a => !a.position && a.toothName)` (line 1520). -/
def annotationsNeedingPositions (annotations : List Annotation) : List Annotation :=
  annotations.filter fun a => a.position.isNone && truthy a.toothName

/-- The update the effect pushes for one annotation (lines 1528–1589):
look up the tooth's mesh, run the best-vertex search in the fixed
occlusal direction, and produce `(id, position, normal)` only when a
best vertex was found — on a missing mesh, missing attributes, or an
empty buffer no update is produced (there is no fallback here). -/
def computeUpdate (vnormalize : Vec3 → Vec3) (env : MeshEnv) (a : Annotation) :
    Option (String × Vec3 × Vec3) :=
  match a.toothName with
  | none => none
  | some tn =>
      if tn = "" then none
      else
        match env tn with
        | none => none
        | some mesh =>
            (bestSample vnormalize mesh (boxCenter (worldBox mesh)) ⟨0, 1, 0⟩).map
              fun r => (a.id, r.1, r.2)

/-- The record update of `handleUpdateAnnotationPositions`: set both
position and normal. -/
def updAnn (u : String × Vec3 × Vec3) (a : Annotation) : Annotation :=
  { a with position := some u.2.1, normal := some u.2.2 }

/-- `findIndex` + in-place update of one pushed update (lines 2431–2439):
only the first annotation with a matching id is updated. -/
def applyUpdate (u : String × Vec3 × Vec3) : List Annotation → List Annotation
  | [] => []
  | a :: rest => if a.id = u.1 then updAnn u a :: rest else a :: applyUpdate u rest

/-- `handleUpdateAnnotationPositions` (lines 2428–2443): apply the
pushed updates in order. -/
def handleUpdateAnnotationPositions (annotations : List Annotation)
    (updates : List (String × Vec3 × Vec3)) : List Annotation :=
  updates.foldl (fun acc u => applyUpdate u acc) annotations

/-- The whole resolution pass (lines 1516–1596): collect updates for the
annotations still lacking a position, then apply them. -/
def resolvePendingNotePositions (vnormalize : Vec3 → Vec3) (env : MeshEnv)
    (annotations : List Annotation) : List Annotation :=
  handleUpdateAnnotationPositions annotations
    ((annotationsNeedingPositions annotations).filterMap (computeUpdate vnormalize env))

/-- The §3 invariant: position and normal both null or both set. -/
def anchorsConsistent (a : Annotation) : Bool :=
  (a.position.isNone && a.normal.isNone) || (a.position.isSome && a.normal.isSome)

theorem computeUpdate_id (vnormalize : Vec3 → Vec3) (env : MeshEnv) (a : Annotation)
    (u : String × Vec3 × Vec3) (h : computeUpdate vnormalize env a = some u) :
    u.1 = a.id := by
  unfold computeUpdate at h
  rcases hta : a.toothName with _ | tn <;> rw [hta] at h <;> dsimp only at h
  · exact absurd h (by simp)
  · by_cases htn : tn = ""
    · rw [if_pos htn] at h
      exact absurd h (by simp)
    · rw [if_neg htn] at h
      rcases he : env tn with _ | mesh <;> rw [he] at h <;> dsimp only at h
      · exact absurd h (by simp)
      · rcases hb : bestSample vnormalize mesh (boxCenter (worldBox mesh)) ⟨0, 1, 0⟩
          with _ | r <;> rw [hb] at h <;> simp only [Option.map_none', Option.map_some'] at h
        · exact absurd h (by simp)
        · cases h
          rfl

theorem updAnn_id (u : String × Vec3 × Vec3) (a : Annotation) : (updAnn u a).id = a.id := rfl

end JawViewer

namespace JawViewer

theorem applyUpdate_eq_map (u : String × Vec3 × Vec3) :
    ∀ (anns : List Annotation), (anns.map Annotation.id).Nodup →
      applyUpdate u anns = anns.map fun a => if a.id = u.1 then updAnn u a else a := by
  intro anns
  induction anns with
  | nil => intro _; rfl
  | cons a rest ih =>
      intro hnd
      rw [List.map_cons, List.nodup_cons] at hnd
      obtain ⟨hnotin, hnd⟩ := hnd
      rw [List.map_cons]
      by_cases ha : a.id = u.1
      · rw [applyUpdate, if_pos ha, if_pos ha]
        have hrest : ∀ b ∈ rest, (if b.id = u.1 then updAnn u b else b) = b := by
          intro b hb
          rw [if_neg]
          intro hbu
          exact hnotin (ha ▸ hbu ▸ List.mem_map_of_mem Annotation.id hb)
        rw [List.map_congr_left hrest]
        simp
      · rw [applyUpdate, if_neg ha, if_neg ha, ih hnd]

theorem handleUpdate_eq_map :
    ∀ (updates : List (String × Vec3 × Vec3)) (anns : List Annotation),
      (anns.map Annotation.id).Nodup → (updates.map Prod.fst).Nodup →
      handleUpdateAnnotationPositions anns updates =
        anns.map fun a =>
          match updates.find? fun u => u.1 = a.id with
          | some u => updAnn u a
          | none => a := by
  intro updates
  induction updates with
  | nil =>
      intro anns _ _
      unfold handleUpdateAnnotationPositions
      simp
  | cons u us ih =>
      intro anns hanns hus
      rw [List.map_cons, List.nodup_cons] at hus
      obtain ⟨hunotin, hus⟩ := hus
      unfold handleUpdateAnnotationPositions
      rw [List.foldl_cons]
      rw [applyUpdate_eq_map u anns hanns]
      have hids : ((anns.map fun a => if a.id = u.1 then updAnn u a else a).map
          Annotation.id) = anns.map Annotation.id := by
        rw [List.map_map]
        refine List.map_congr_left fun a _ => ?_
        by_cases ha : a.id = u.1 <;> simp [ha, updAnn]
      have hrec := ih (anns.map fun a => if a.id = u.1 then updAnn u a else a)
        (by rw [hids]; exact hanns) hus
      unfold handleUpdateAnnotationPositions at hrec
      rw [hrec, List.map_map]
      refine List.map_congr_left fun a _ => ?_
      simp only [Function.comp_apply]
      by_cases ha : a.id = u.1
      · rw [if_pos ha]
        have hfind : us.find? (fun u' => u'.1 = (updAnn u a).id) = none := by
          rw [List.find?_eq_none]
          intro x hx
          simp only [updAnn, decide_eq_true_eq]
          intro hxi
          exact hunotin (ha ▸ hxi ▸ List.mem_map_of_mem Prod.fst hx)
        rw [hfind, List.find?_cons_of_pos _ (by simpa using ha.symm)]
      · rw [if_neg ha, List.find?_cons_of_neg _ (by simpa using fun h => ha h.symm)]

theorem filterMap_updates_ids_sublist (vnormalize : Vec3 → Vec3) (env : MeshEnv) :
    ∀ (l : List Annotation),
      ((l.filterMap (computeUpdate vnormalize env)).map Prod.fst).Sublist
        (l.map Annotation.id) := by
  intro l
  induction l with
  | nil => simp
  | cons a rest ih =>
      rw [List.filterMap_cons, List.map_cons]
      rcases hc : computeUpdate vnormalize env a with _ | u
      · exact ih.cons a.id
      · rw [List.map_cons, computeUpdate_id vnormalize env a u hc]
        exact ih.cons₂ a.id

theorem updates_ids_nodup (vnormalize : Vec3 → Vec3) (env : MeshEnv)
    (annotations : List Annotation) (h : (annotations.map Annotation.id).Nodup) :
    (((annotationsNeedingPositions annotations).filterMap
      (computeUpdate vnormalize env)).map Prod.fst).Nodup := by
  have h1 := filterMap_updates_ids_sublist vnormalize env
    (annotationsNeedingPositions annotations)
  have h2 : ((annotationsNeedingPositions annotations).map Annotation.id).Sublist
      (annotations.map Annotation.id) :=
    (List.filter_sublist annotations).map Annotation.id
  exact (h1.trans h2).nodup h

end JawViewer

namespace JawViewer

/-- C6: over a chart whose annotation ids are distinct, the resolution
pass (1) keeps the list length, (2) preserves the both-null-or-both-set
invariant on position/normal (updates set both at once), (3) never
touches an annotation whose position is already set — positions go from
null to set at most once — and (4) is idempotent: running the pass again
changes nothing. -/
theorem note_resolution (vnormalize : Vec3 → Vec3) (env : MeshEnv)
    (annotations : List Annotation)
    (hnodup : (annotations.map Annotation.id).Nodup) :
    (resolvePendingNotePositions vnormalize env annotations).length = annotations.length ∧
    ((∀ a ∈ annotations, anchorsConsistent a = true) →
      ∀ b ∈ resolvePendingNotePositions vnormalize env annotations,
        anchorsConsistent b = true) ∧
    (∀ (i : ℕ) (d : Annotation), (annotations.getD i d).position.isSome = true →
      (resolvePendingNotePositions vnormalize env annotations).getD i d =
        annotations.getD i d) ∧
    resolvePendingNotePositions vnormalize env
        (resolvePendingNotePositions vnormalize env annotations) =
      resolvePendingNotePositions vnormalize env annotations := by
  have hun := updates_ids_nodup vnormalize env annotations hnodup
  have hmap : resolvePendingNotePositions vnormalize env annotations =
      annotations.map fun a =>
        match ((annotationsNeedingPositions annotations).filterMap
            (computeUpdate vnormalize env)).find? fun u => u.1 = a.id with
        | some u => updAnn u a
        | none => a := by
    unfold resolvePendingNotePositions
    exact handleUpdate_eq_map _ annotations hnodup hun
  have hres : ∀ a ∈ annotations, a.position.isSome = true →
      ((annotationsNeedingPositions annotations).filterMap
        (computeUpdate vnormalize env)).find? (fun u => u.1 = a.id) = none := by
    intro a ha hpos
    rw [List.find?_eq_none]
    intro u hu
    simp only [decide_eq_true_eq]
    intro hui
    obtain ⟨b, hbmem, hcb⟩ := List.mem_filterMap.mp hu
    have hbid : u.1 = b.id := computeUpdate_id vnormalize env b u hcb
    have hb_in : b ∈ annotations := List.mem_of_mem_filter hbmem
    have hbnone : b.position.isNone = true := by
      have h := List.of_mem_filter hbmem
      simp only [Bool.and_eq_true] at h
      exact h.1
    have hab : a = b :=
      List.inj_on_of_nodup_map hnodup ha hb_in (by rw [← hui, hbid])
    rw [hab] at hpos
    rw [Option.isNone_iff_eq_none.mp hbnone] at hpos
    exact absurd hpos (by simp)
  refine ⟨?_, ?_, ?_, ?_⟩
  · rw [hmap, List.length_map]
  · intro hall b hb
    rw [hmap] at hb
    obtain ⟨a, ha, rfl⟩ := List.mem_map.mp hb
    rcases hf : ((annotationsNeedingPositions annotations).filterMap
        (computeUpdate vnormalize env)).find? fun u => u.1 = a.id with _ | u
    · rw [hf]
      exact hall a ha
    · rw [hf]
      simp [anchorsConsistent, updAnn]
  · intro i d hpos
    by_cases hi : i < annotations.length
    · rw [hmap]
      rw [List.getD_eq_getElem _ d hi] at hpos ⊢
      rw [List.getD_eq_getElem _ d (by simpa using hi)]
      rw [List.getElem_map]
      rw [hres annotations[i] (annotations.getElem_mem hi) hpos]
    · have hge : annotations.length ≤ i := le_of_not_lt hi
      rw [hmap]
      rw [List.getD_eq_default _ d (by simpa using hge),
        List.getD_eq_default _ d hge]
  · have hup2 : (annotationsNeedingPositions
        (resolvePendingNotePositions vnormalize env annotations)).filterMap
          (computeUpdate vnormalize env) = [] := by
      rw [List.filterMap_eq_nil_iff]
      intro b hb
      have hbpred := List.of_mem_filter hb
      have hbnone : b.position.isNone = true := by
        have h := hbpred
        simp only [Bool.and_eq_true] at h
        exact h.1
      have hbmem : b ∈ resolvePendingNotePositions vnormalize env annotations :=
        List.mem_of_mem_filter hb
      rw [hmap] at hbmem
      obtain ⟨a, ha, hba⟩ := List.mem_map.mp hbmem
      rcases hf : ((annotationsNeedingPositions annotations).filterMap
          (computeUpdate vnormalize env)).find? fun u => u.1 = a.id with _ | u
      · rw [hf] at hba
        by_contra hne
        obtain ⟨u', hu'⟩ := Option.ne_none_iff_exists'.mp hne
        have hb_in_filter : b ∈ annotationsNeedingPositions annotations :=
          List.mem_filter.mpr ⟨hba ▸ ha, hbpred⟩
        have hu'mem : u' ∈ (annotationsNeedingPositions annotations).filterMap
            (computeUpdate vnormalize env) :=
          List.mem_filterMap.mpr ⟨b, hb_in_filter, hu'⟩
        have hu'id : u'.1 = b.id := computeUpdate_id vnormalize env b u' hu'
        rw [List.find?_eq_none] at hf
        exact hf u' hu'mem (by simp [hu'id, ← hba])
      · rw [hf] at hba
        rw [← hba] at hbnone
        simp [updAnn] at hbnone
    conv_lhs => rw [resolvePendingNotePositions]
    rw [hup2]
    rfl

end JawViewer

namespace JawViewer

/-- A concrete two-note chart with distinct ids, used by the C6 witness. -/
def annW : List Annotation :=
  [ { id := "n1", toothName := some "jaw.005", toothNumber := some 3, position := none,
      normal := none, text := "check molar", createdAt := 0, createdBy := "Doctor",
      isPublic := true },
    { id := "n2", toothName := none, toothNumber := none, position := none,
      normal := none, text := "general", createdAt := 1, createdBy := "Doctor",
      isPublic := false } ]

/-- Witness for `note_resolution`: a two-note chart with distinct ids;
the pass keeps the length and is idempotent. -/
theorem note_resolution_witness :
    (annW.map Annotation.id).Nodup ∧
      (resolvePendingNotePositions (fun v => v) envJaw5 annW).length = annW.length ∧
      resolvePendingNotePositions (fun v => v) envJaw5
          (resolvePendingNotePositions (fun v => v) envJaw5 annW) =
        resolvePendingNotePositions (fun v => v) envJaw5 annW := by
  have hnd : (annW.map Annotation.id).Nodup := by
    simp [annW]
  exact ⟨hnd, (note_resolution (fun v => v) envJaw5 annW hnd).1,
    (note_resolution (fun v => v) envJaw5 annW hnd).2.2.2⟩

end JawViewer
